import Mathlib

/-!
Verification of the certificate-pinning core of vuln-bank-mobile
(security level "custom").

The embedding translates three source units:

* `DataSyncManager.kt` — the native module holding the sticky
  `sessionIntegrity` flag, the real validator `ensureConfigSync`, the decoys
  `validateCertificate` / `checkSSLPinning` / `verifyCertificateChain`, and
  `getConnectionMetrics`.
* `ConfigInterceptor.kt` — the OkHttp interceptor that re-validates the SPKI
  pin on every request to the pinned domain.
* `src/security/custom/httpClient.ts` — the JS entry point `secureFetch`
  with its own sticky `sessionCompromised` flag and the 30 ms timing layer.

External collaborators (the TLS stack, the wall clock, the SHA-256/Base64
primitives, the network) are inputs: connection outcomes, elapsed times and
fetch outcomes are parameters, and the platform's base64-of-SHA-256 digest
is an abstract function parameter `sha : ByteHash`.  Calls to external
systems are recorded in explicit effect lists so that "no network operation
was performed" is a provable statement.
-/

namespace VulnBank

/-- `Base64.encodeToString(MessageDigest("SHA-256").digest(·), NO_WRAP)`:
the platform digest primitive, an external collaborator, modelled as an
abstract function from DER bytes to the rendered fingerprint string. -/
abbrev ByteHash := List Nat → String

/-- A certificate as the pinning core sees it: only its DER-encoded
SubjectPublicKeyInfo (`cert.publicKey.encoded`) matters. -/
structure Certificate where
  publicKeyDER : List Nat
deriving DecidableEq

/-- An element of a peer certificate chain: either an `X509Certificate`
(the `as? X509Certificate` cast succeeds) or some other certificate type
(the cast yields null). -/
inductive PeerCert where
  | x509 (c : Certificate)
  | other
deriving DecidableEq

/-- Outcome of the dedicated `HttpsURLConnection` in `ensureConfigSync`:
either an exception (connect failure, DNS failure, unreachable host, read
timeout — anything the Kotlin `catch (e: Exception)` sees) or a completed
handshake delivering `connection.serverCertificates`. -/
inductive ConnectOutcome where
  | failure (msg : String)
  | success (certs : List PeerCert)
deriving DecidableEq

/-- Result delivered through the React Native `Promise`:
`promise.resolve(b)` or `promise.reject(code, msg)`. -/
inductive NativeResult where
  | resolved (b : Bool)
  | rejected (code : String) (msg : String)
deriving DecidableEq

/-- Mutable fields of the `DataSyncManager` native module. -/
structure SyncState where
  sessionIntegrity : Bool
  validationCount : Nat
  lastValidationTimestamp : Nat
  interceptorInstalled : Bool
deriving DecidableEq

/-- Initial native state: `sessionIntegrity = true`, counters zero,
interceptor not yet installed. -/
def SyncState.init : SyncState :=
  { sessionIntegrity := true
    validationCount := 0
    lastValidationTimestamp := 0
    interceptorInstalled := false }

/-- `computeSpkiHash`: SHA-256 of the leaf's DER public key, base64
rendered (`Base64.NO_WRAP`), via the abstract digest primitive. -/
def computeSpkiHash (sha : ByteHash) (cert : Certificate) : String :=
  sha cert.publicKeyDER

/-- `DataSyncManager.ensureConfigSync(domain, pinHash, promise)`.
The connection outcome `conn`, the measured elapsed milliseconds
`elapsedMs` (`(System.nanoTime() - startTime) / 1_000_000`, computed at the
timing check) and the wall clock `now` (`System.currentTimeMillis()`) are
external inputs.  `installInterceptorIfNeeded` runs first; then the
dedicated connection is examined exactly as in the Kotlin source. -/
def ensureConfigSync (sha : ByteHash) (domain pinHash : String)
    (conn : ConnectOutcome) (elapsedMs : Nat) (now : Nat)
    (s : SyncState) : NativeResult × SyncState :=
  let _ := domain
  let s := { s with interceptorInstalled := true }
  match conn with
  | .failure msg =>
      (.rejected "CONFIG_ERROR" ("DataSync: Sync failed - " ++ msg),
       { s with sessionIntegrity := false })
  | .success certs =>
    match certs with
    | [] =>
        (.rejected "CONFIG_ERROR" "DataSync: No configuration available",
         { s with sessionIntegrity := false })
    | leaf :: _ =>
      match leaf with
      | .other =>
          (.rejected "CONFIG_ERROR" "DataSync: Configuration format error",
           { s with sessionIntegrity := false })
      | .x509 c =>
        if computeSpkiHash sha c ≠ pinHash then
          (.rejected "CONFIG_MISMATCH" "DataSync: Configuration mismatch",
           { s with sessionIntegrity := false })
        else if elapsedMs < 50 then
          (.rejected "CONFIG_ERROR" "DataSync: Sync timing anomaly",
           { s with sessionIntegrity := false })
        else
          (.resolved true,
           { s with validationCount := s.validationCount + 1,
                    lastValidationTimestamp := now })

/-- DECOY `DataSyncManager.validateCertificate(domain, promise)`: performs
a real connection (outcome `conn`) but resolves `certs.isNotEmpty()` on
success and `true` on any exception; never touches any module field. -/
def validateCertificate (conn : ConnectOutcome) (s : SyncState) :
    NativeResult × SyncState :=
  match conn with
  | .failure _ => (.resolved true, s)
  | .success certs => (.resolved (!certs.isEmpty), s)

/-- DECOY `DataSyncManager.checkSSLPinning(promise)`: always resolves
`true`. -/
def checkSSLPinning (s : SyncState) : NativeResult × SyncState :=
  (.resolved true, s)

/-- DECOY `DataSyncManager.verifyCertificateChain(promise)`: always
resolves `true`. -/
def verifyCertificateChain (s : SyncState) : NativeResult × SyncState :=
  (.resolved true, s)

/-- The map returned by `getConnectionMetrics`. -/
structure Metrics where
  validationCount : Nat
  lastTimestamp : Nat
  sessionIntegrity : Bool
deriving DecidableEq

/-- `DataSyncManager.getConnectionMetrics(promise)`: reads the counters and
the flag, writes nothing. -/
def getConnectionMetrics (s : SyncState) : Metrics × SyncState :=
  ({ validationCount := s.validationCount
     lastTimestamp := s.lastValidationTimestamp
     sessionIntegrity := s.sessionIntegrity }, s)

/-! ## ConfigInterceptor -/

/-- An OkHttp request, reduced to the one field the interceptor examines:
`request.url.host`. -/
structure Request where
  host : String
deriving DecidableEq

/-- An OkHttp response, reduced to the fields the interceptor examines:
`response.handshake` (null when absent) with its `peerCertificates`. -/
structure OkResponse where
  handshake : Option (List PeerCert)
deriving DecidableEq

/-- Outcome of `chain.proceed(request)`: an `IOException` thrown by the
transport, or a response. -/
inductive ProceedOutcome where
  | thrown (msg : String)
  | ok (resp : OkResponse)
deriving DecidableEq

/-- The result `chain.proceed(request)` contributes when it is returned or
propagated unchanged. -/
def proceedResult : ProceedOutcome → Except String OkResponse
  | .thrown m => .error m
  | .ok r => .ok r

/-- Observable actions of one `intercept` run: forwarding the request on
the chain, and computing an SPKI fingerprint. -/
inductive IEffect where
  | proceed (host : String)
  | computeHash
deriving DecidableEq

/-- ASCII lower-casing of one character. -/
def charLower (c : Char) : Char :=
  if c.isUpper then Char.ofNat (c.toNat + 32) else c

/-- Kotlin `String.equals(other, ignoreCase = true)`: per-character
case-insensitive comparison (hostnames are ASCII). -/
def eqIgnoreCase (a b : String) : Bool :=
  a.data.map charLower == b.data.map charLower

/-- `ConfigInterceptor.intercept(chain)`: skip hosts other than the pinned
domain, otherwise proceed, extract the leaf certificate from the handshake
and compare its SPKI hash with the pinned hash; every failure is an
`IOException` carried as `.error`. -/
def intercept (pinnedDomain pinnedHash : String) (sha : ByteHash)
    (pr : ProceedOutcome) (req : Request) :
    Except String OkResponse × List IEffect :=
  if eqIgnoreCase req.host pinnedDomain then
    match pr with
    | .thrown m => (.error m, [.proceed req.host])
    | .ok r =>
      match r.handshake with
      | none => (.error "DataSync: Configuration unavailable", [.proceed req.host])
      | some certs =>
        match certs with
        | [] => (.error "DataSync: Configuration missing", [.proceed req.host])
        | leaf :: _ =>
          match leaf with
          | .other =>
              (.error "DataSync: Configuration format error", [.proceed req.host])
          | .x509 c =>
            if computeSpkiHash sha c ≠ pinnedHash then
              (.error "DataSync: Configuration mismatch",
               [.proceed req.host, .computeHash])
            else
              (.ok r, [.proceed req.host, .computeHash])
  else
    (proceedResult pr, [.proceed req.host])

/-! ## JS client (`src/security/custom/httpClient.ts`) -/

/-- Contiguous-substring test on character lists, structural recursion on
the searched list. -/
def charsInclude : List Char → List Char → Bool
  | [], pat => pat.isEmpty
  | c :: t, pat => pat.isPrefixOf (c :: t) || charsInclude t pat

/-- JS `String.prototype.includes`. -/
def strIncludes (s pat : String) : Bool :=
  charsInclude s.data pat.data

/-- JS `a || b` on strings: the empty string is falsy. -/
def jsOr (a b : String) : String :=
  if a = "" then b else a

/-- Insert-or-overwrite on an association list, as `result[key] = value`
behaves on a JS object. -/
def setKey : List (String × String) → String → String → List (String × String)
  | [], k, v => [(k, v)]
  | (k', v') :: rest, k, v =>
      if k' = k then (k, v) :: rest else (k', v') :: setKey rest k v

/-- `headersToObject`: fold the `Headers` entries into a plain object. -/
def headersToObject (headers : List (String × String)) : List (String × String) :=
  headers.foldl (fun acc kv => setKey acc kv.1 kv.2) []

/-- The `SecureFetchResponse` built by `secureFetch` (the `json`/`text`
thunks carry no decidable content and are omitted). -/
structure SecureFetchResponse where
  ok : Bool
  status : Nat
  headers : List (String × String)
  url : String
deriving DecidableEq

/-- The raw response `fetch` resolves with. -/
structure RawResponse where
  ok : Bool
  status : Nat
  headers : List (String × String)
  url : String
deriving DecidableEq

/-- Outcome of `fetch(url, options)`: a rejection with an error message, or
a response. -/
inductive FetchOutcome where
  | thrown (msg : String)
  | ok (resp : RawResponse)
deriving DecidableEq

/-- External inputs consumed by one `secureFetch` call: the request `url`,
the raw `@env` values (empty string when unset), whether
`NativeModules.DataSyncManager` is present, the native connection outcome
and clocks, the JS-measured elapsed time `Date.now() - start`, and the
outcome of the final `fetch`. -/
structure SecureFetchEnv where
  url : String
  domainEnvRaw : String
  pinEnvRaw : String
  nativePresent : Bool
  conn : ConnectOutcome
  nativeElapsedMs : Nat
  now : Nat
  jsElapsed : Nat
  fetchResult : FetchOutcome
deriving DecidableEq

/-- The combined mutable state of the subsystem: the JS module-level
`sessionCompromised` flag and the native module's fields. -/
structure World where
  js : Bool
  native : SyncState
deriving DecidableEq

/-- Process start: JS flag `false` (not compromised), native state
`SyncState.init`. -/
def World.init : World :=
  { js := false, native := SyncState.init }

/-- Calls `secureFetch` makes to external systems. -/
inductive JsEffect where
  | nativeSync (domain pin : String)
  | jsFetch (url : String)
deriving DecidableEq

instance {ε α : Type} [DecidableEq ε] [DecidableEq α] :
    DecidableEq (Except ε α) := fun a b =>
  match a, b with
  | .error x, .error y => decidable_of_iff (x = y) (by simp)
  | .error _, .ok _ => .isFalse (by simp)
  | .ok _, .error _ => .isFalse (by simp)
  | .ok x, .ok y => decidable_of_iff (x = y) (by simp)

/-- Result of a `secureFetch` call: the value returned or the error
thrown, the state afterwards, and the external calls made. -/
structure SFOut where
  res : Except String SecureFetchResponse
  world : World
  effs : List JsEffect
deriving DecidableEq

/-- The tail of `secureFetch`: `fetch(url, options)` inside `try/catch`;
a caught error sets `sessionCompromised` only when its message contains
`'DataSync'` (the interceptor's rejections surface here), then rethrows. -/
def runFetch (env : SecureFetchEnv) (w : World) (effs : List JsEffect) : SFOut :=
  match env.fetchResult with
  | .ok r =>
      { res := .ok { ok := r.ok, status := r.status,
                     headers := headersToObject r.headers, url := r.url }
        world := w
        effs := effs ++ [.jsFetch env.url] }
  | .thrown m =>
      if strIncludes m "DataSync" then
        { res := .error m
          world := { w with js := true }
          effs := effs ++ [.jsFetch env.url] }
      else
        { res := .error m, world := w, effs := effs ++ [.jsFetch env.url] }

/-- `secureFetch(url, options)`: refuse if the session is already
compromised; otherwise run the native validation (when the module is
present) with the JS 30 ms timing layer around it, then perform the fetch. -/
def secureFetch (env : SecureFetchEnv) (sha : ByteHash) (w : World) : SFOut :=
  if w.js then
    { res := .error "DataSync: Session integrity lost", world := w, effs := [] }
  else
    let domain := jsOr env.domainEnvRaw "vulnbank.org"
    let pinHash := jsOr env.pinEnvRaw ""
    if env.nativePresent then
      let r := ensureConfigSync sha domain pinHash env.conn env.nativeElapsedMs
                 env.now w.native
      let w1 : World := { w with native := r.2 }
      match r.1 with
      | .rejected _ msg =>
          { res := .error ("DataSync: Configuration sync failed - " ++ msg)
            world := { w1 with js := true }
            effs := [.nativeSync domain pinHash] }
      | .resolved _ =>
          if env.jsElapsed < 30 then
            { res := .error "DataSync: Session integrity lost"
              world := { w1 with js := true }
              effs := [.nativeSync domain pinHash] }
          else
            runFetch env w1 [.nativeSync domain pinHash]
    else
      runFetch env w []

/-! ## Operation alphabet for the latch invariant -/

/-- A decoy invocation. -/
inductive DecoyCall where
  | validate (conn : ConnectOutcome)
  | checkPin
  | verifyChain
deriving DecidableEq

/-- Run one decoy call for its state effect. -/
def stepDecoy (s : SyncState) : DecoyCall → SyncState
  | .validate conn => (validateCertificate conn s).2
  | .checkPin => (checkSSLPinning s).2
  | .verifyChain => (verifyCertificateChain s).2

/-- Run a sequence of decoy calls. -/
def runDecoys (ds : List DecoyCall) (s : SyncState) : SyncState :=
  ds.foldl stepDecoy s

/-- One operation of the subsystem, as callable from outside: a
`secureFetch`, a direct native `ensureConfigSync`, an interceptor run on
the primary transport, a decoy call, or a metrics read. -/
inductive Op where
  | sfetch (env : SecureFetchEnv)
  | nativeSync (domain pin : String) (conn : ConnectOutcome) (elapsed now : Nat)
  | interceptRun (domain pin : String) (pr : ProceedOutcome) (req : Request)
  | decoy (d : DecoyCall)
  | metrics
deriving DecidableEq

/-- State effect of one operation.  `intercept` is a pure function of its
arguments (the `ConfigInterceptor` class has no mutable field and no
reference to the flags), so an interceptor run leaves the world unchanged;
its verdicts reach the flags only through `secureFetch`'s catch blocks. -/
def stepOp (sha : ByteHash) (w : World) : Op → World
  | .sfetch env => (secureFetch env sha w).world
  | .nativeSync domain pin conn e now =>
      { w with native := (ensureConfigSync sha domain pin conn e now w.native).2 }
  | .interceptRun domain pin pr req =>
      let _ := intercept domain pin sha pr req
      w
  | .decoy d => { w with native := stepDecoy w.native d }
  | .metrics => { w with native := (getConnectionMetrics w.native).2 }

/-- Run a sequence of operations. -/
def runOps (sha : ByteHash) (w : World) (ops : List Op) : World :=
  ops.foldl (stepOp sha) w

/-! ## Helper lemmas -/

theorem ensureConfigSync_integrity_mono (sha : ByteHash) (domain pin : String)
    (conn : ConnectOutcome) (e now : Nat) (s : SyncState) :
    (ensureConfigSync sha domain pin conn e now s).2.sessionIntegrity = true →
    s.sessionIntegrity = true := by
  unfold ensureConfigSync
  cases conn with
  | failure m => simp
  | success certs =>
    cases certs with
    | nil => simp
    | cons leaf rest =>
      cases leaf with
      | other => simp
      | x509 c =>
        by_cases h : computeSpkiHash sha c ≠ pin
        · simp [h]
        · by_cases ht : e < 50 <;> simp [h, ht]

theorem ensureConfigSync_failure (sha : ByteHash) (domain pin msg : String)
    (e now : Nat) (s : SyncState) :
    ensureConfigSync sha domain pin (.failure msg) e now s =
      (.rejected "CONFIG_ERROR" ("DataSync: Sync failed - " ++ msg),
       { s with interceptorInstalled := true, sessionIntegrity := false }) := by
  unfold ensureConfigSync
  rfl

theorem ensureConfigSync_empty_chain (sha : ByteHash) (domain pin : String)
    (e now : Nat) (s : SyncState) :
    ensureConfigSync sha domain pin (.success []) e now s =
      (.rejected "CONFIG_ERROR" "DataSync: No configuration available",
       { s with interceptorInstalled := true, sessionIntegrity := false }) := by
  unfold ensureConfigSync
  rfl

theorem ensureConfigSync_bad_leaf (sha : ByteHash) (domain pin : String)
    (cs : List PeerCert) (e now : Nat) (s : SyncState) :
    ensureConfigSync sha domain pin (.success (.other :: cs)) e now s =
      (.rejected "CONFIG_ERROR" "DataSync: Configuration format error",
       { s with interceptorInstalled := true, sessionIntegrity := false }) := by
  unfold ensureConfigSync
  rfl

theorem ensureConfigSync_mismatch (sha : ByteHash) (domain pin : String)
    (c : Certificate) (cs : List PeerCert) (e now : Nat) (s : SyncState)
    (hne : computeSpkiHash sha c ≠ pin) :
    ensureConfigSync sha domain pin (.success (.x509 c :: cs)) e now s =
      (.rejected "CONFIG_MISMATCH" "DataSync: Configuration mismatch",
       { s with interceptorInstalled := true, sessionIntegrity := false }) := by
  unfold ensureConfigSync
  simp [hne]

theorem ensureConfigSync_timing (sha : ByteHash) (domain pin : String)
    (c : Certificate) (cs : List PeerCert) (e now : Nat) (s : SyncState)
    (hm : computeSpkiHash sha c = pin) (ht : e < 50) :
    ensureConfigSync sha domain pin (.success (.x509 c :: cs)) e now s =
      (.rejected "CONFIG_ERROR" "DataSync: Sync timing anomaly",
       { s with interceptorInstalled := true, sessionIntegrity := false }) := by
  unfold ensureConfigSync
  simp [hm, ht]

theorem ensureConfigSync_valid (sha : ByteHash) (domain pin : String)
    (c : Certificate) (cs : List PeerCert) (e now : Nat) (s : SyncState)
    (hm : computeSpkiHash sha c = pin) (hfloor : 50 ≤ e) :
    ensureConfigSync sha domain pin (.success (.x509 c :: cs)) e now s =
      (.resolved true,
       { s with interceptorInstalled := true,
                validationCount := s.validationCount + 1,
                lastValidationTimestamp := now }) := by
  have h50 : ¬ e < 50 := Nat.not_lt.mpr hfloor
  unfold ensureConfigSync
  simp [hm, h50]

theorem stepDecoy_state_id (s : SyncState) (d : DecoyCall) : stepDecoy s d = s := by
  cases d with
  | validate conn =>
    cases conn <;> simp [stepDecoy, validateCertificate]
  | checkPin => simp [stepDecoy, checkSSLPinning]
  | verifyChain => simp [stepDecoy, verifyCertificateChain]

theorem runDecoys_state_id (ds : List DecoyCall) (s : SyncState) :
    runDecoys ds s = s := by
  induction ds generalizing s with
  | nil => rfl
  | cons d ds ih => simp [runDecoys, List.foldl_cons, stepDecoy_state_id, ih] at *
                    exact ih s

theorem runFetch_native_eq (env : SecureFetchEnv) (w : World) (effs : List JsEffect) :
    (runFetch env w effs).world.native = w.native := by
  unfold runFetch
  cases env.fetchResult with
  | ok r => rfl
  | thrown m => by_cases h : strIncludes m "DataSync" <;> simp [h]

theorem runFetch_js_mono (env : SecureFetchEnv) (w : World) (effs : List JsEffect) :
    (runFetch env w effs).world.js = false → w.js = false := by
  unfold runFetch
  cases env.fetchResult with
  | ok r => exact fun h => h
  | thrown m => by_cases h : strIncludes m "DataSync" <;> simp [h]

theorem runFetch_thrown (env : SecureFetchEnv) (w : World) (effs : List JsEffect)
    (m : String) (hf : env.fetchResult = .thrown m) :
    runFetch env w effs =
      { res := .error m,
        world := if strIncludes m "DataSync" then { w with js := true } else w,
        effs := effs ++ [.jsFetch env.url] } := by
  unfold runFetch
  rw [hf]
  by_cases h : strIncludes m "DataSync" <;> simp [h]

theorem secureFetch_no_native (env : SecureFetchEnv) (sha : ByteHash) (w : World)
    (hjs : w.js = false) (hn : env.nativePresent = false) :
    secureFetch env sha w = runFetch env w [] := by
  unfold secureFetch
  simp [hjs, hn]

theorem secureFetch_js_mono (env : SecureFetchEnv) (sha : ByteHash) (w : World) :
    (secureFetch env sha w).world.js = false → w.js = false := by
  unfold secureFetch
  by_cases hjs : w.js
  · simp [hjs]
  · by_cases hn : env.nativePresent
    · simp only [hjs, hn, if_true, if_false, Bool.false_eq_true]
      cases hres : (ensureConfigSync sha (jsOr env.domainEnvRaw "vulnbank.org")
          (jsOr env.pinEnvRaw "") env.conn env.nativeElapsedMs env.now w.native).1 with
      | rejected code msg => simp [hres]
      | resolved b =>
        by_cases ht : env.jsElapsed < 30
        · simp [hres, ht]
        · exact fun _ => trivial
    · intro _
      simp only [Bool.not_eq_true] at hjs
      exact hjs

theorem secureFetch_native_integrity_mono (env : SecureFetchEnv) (sha : ByteHash)
    (w : World) :
    (secureFetch env sha w).world.native.sessionIntegrity = true →
    w.native.sessionIntegrity = true := by
  unfold secureFetch
  by_cases hjs : w.js
  · simp [hjs]
  · by_cases hn : env.nativePresent
    · simp only [hjs, hn, if_true, if_false, Bool.false_eq_true]
      cases hres : (ensureConfigSync sha (jsOr env.domainEnvRaw "vulnbank.org")
          (jsOr env.pinEnvRaw "") env.conn env.nativeElapsedMs env.now w.native).1 with
      | rejected code msg =>
        simp only [hres]
        intro h
        exact ensureConfigSync_integrity_mono _ _ _ _ _ _ _ h
      | resolved b =>
        by_cases ht : env.jsElapsed < 30
        · simp only [hres, ht, if_true]
          intro h
          exact ensureConfigSync_integrity_mono _ _ _ _ _ _ _ h
        · simp only [hres, ht, if_false]
          intro h
          rw [runFetch_native_eq] at h
          exact ensureConfigSync_integrity_mono _ _ _ _ _ _ _ h
    · simp only [hjs, hn, if_true, if_false, Bool.false_eq_true]
      intro h
      rw [runFetch_native_eq] at h
      exact h

theorem stepOp_js_mono (sha : ByteHash) (w : World) (op : Op) :
    (stepOp sha w op).js = false → w.js = false := by
  cases op with
  | sfetch env => exact secureFetch_js_mono env sha w
  | nativeSync domain pin conn e now => intro h; exact h
  | interceptRun domain pin pr req => intro h; exact h
  | decoy d => intro h; exact h
  | metrics => intro h; exact h

theorem stepOp_native_mono (sha : ByteHash) (w : World) (op : Op) :
    (stepOp sha w op).native.sessionIntegrity = true →
    w.native.sessionIntegrity = true := by
  cases op with
  | sfetch env => exact secureFetch_native_integrity_mono env sha w
  | nativeSync domain pin conn e now =>
    intro h
    exact ensureConfigSync_integrity_mono _ _ _ _ _ _ _ h
  | interceptRun domain pin pr req => intro h; exact h
  | decoy d =>
    intro h
    simp only [stepOp] at h
    rwa [stepDecoy_state_id] at h
  | metrics => intro h; exact h

theorem runOps_js_mono (sha : ByteHash) (w : World) (ops : List Op) :
    (runOps sha w ops).js = false → w.js = false := by
  induction ops generalizing w with
  | nil => exact fun h => h
  | cons op ops ih =>
    intro h
    exact stepOp_js_mono sha w op (ih (stepOp sha w op) h)

theorem runOps_native_mono (sha : ByteHash) (w : World) (ops : List Op) :
    (runOps sha w ops).native.sessionIntegrity = true →
    w.native.sessionIntegrity = true := by
  induction ops generalizing w with
  | nil => exact fun h => h
  | cons op ops ih =>
    intro h
    exact stepOp_native_mono sha w op (ih (stepOp sha w op) h)

/-! ## Concrete fixtures for witnesses -/

/-- Concrete digest primitive: DER bytes `[1, 2, 3]` render to the pinned
fingerprint, everything else to a different one. -/
def hashFx : ByteHash := fun l => if l = [1, 2, 3] then "AAAA==" else "BBBB=="

/-- A certificate whose fingerprint (under `hashFx`) matches the pin. -/
def certMatch : Certificate := ⟨[1, 2, 3]⟩

/-- A certificate whose fingerprint (under `hashFx`) does not match. -/
def certOther : Certificate := ⟨[9]⟩

/-- A fully successful `secureFetch` environment: native module present,
matching certificate, both timing floors met, fetch succeeds. -/
def envFx : SecureFetchEnv :=
  { url := "https://vulnbank.org/login"
    domainEnvRaw := "vulnbank.org"
    pinEnvRaw := "AAAA=="
    nativePresent := true
    conn := .success [.x509 certMatch]
    nativeElapsedMs := 80
    now := 1000
    jsElapsed := 45
    fetchResult := .ok { ok := true, status := 200,
                         headers := [("content-type", "application/json")],
                         url := "https://vulnbank.org/login" } }

/-! ## Claim theorems -/

/-- C1: the session-integrity flag is a one-way latch.  For every starting
state and every sequence of operations (secureFetch calls, direct
ensureConfigSync calls, interceptor runs, decoy calls, metrics reads), a
state that ends `Trusted` must have started `Trusted` — equivalently, no
operation sequence ever turns a `Compromised` flag (JS `sessionCompromised
= true`, native `sessionIntegrity = false`) back into a trusted one, and
tripping an already-compromised flag leaves it compromised. -/
theorem session_integrity_one_way_latch (sha : ByteHash) (w : World)
    (ops : List Op) :
    ((runOps sha w ops).js = false → w.js = false) ∧
    ((runOps sha w ops).native.sessionIntegrity = true →
      w.native.sessionIntegrity = true) :=
  ⟨runOps_js_mono sha w ops, runOps_native_mono sha w ops⟩

theorem session_integrity_one_way_latch_witness :
    ({ js := false, native := SyncState.init } : World).js = false :=
  (session_integrity_one_way_latch hashFx
      { js := false, native := SyncState.init }
      [.decoy .checkPin, .metrics, .sfetch envFx]).1 (by decide)

/-- C2: if the session is already compromised, `secureFetch` fails
immediately with the session-integrity-lost error, changes no state, and
performs no external call at all — no `ensureConfigSync`, no `fetch` —
regardless of the certificate or pin in the environment. -/
theorem compromised_session_short_circuits (env : SecureFetchEnv)
    (sha : ByteHash) (w : World) (h : w.js = true) :
    secureFetch env sha w =
      { res := .error "DataSync: Session integrity lost", world := w,
        effs := [] } := by
  unfold secureFetch
  simp [h]

theorem compromised_session_short_circuits_witness :
    secureFetch envFx hashFx { js := true, native := SyncState.init } =
      { res := .error "DataSync: Session integrity lost",
        world := { js := true, native := SyncState.init }, effs := [] } :=
  compromised_session_short_circuits envFx hashFx
    { js := true, native := SyncState.init } rfl

/-- C3: a certificate whose computed SPKI fingerprint differs from the
configured pin is rejected with the pin-mismatch error on both
verification paths, and the session-integrity flag trips: the dedicated
`ensureConfigSync` connection rejects with `CONFIG_MISMATCH` and sets the
native flag to `false`; the `ConfigInterceptor` on the primary transport
throws the mismatch `IOException`, and `secureFetch`'s catch of that error
(its message contains `DataSync`) sets the JS flag to `true`. -/
theorem pin_mismatch_trips_both_paths (sha : ByteHash) (domain pin : String)
    (c : Certificate) (cs : List PeerCert) (e now : Nat) (s : SyncState)
    (hne : computeSpkiHash sha c ≠ pin) :
    (ensureConfigSync sha domain pin (.success (.x509 c :: cs)) e now s =
      (.rejected "CONFIG_MISMATCH" "DataSync: Configuration mismatch",
       { s with interceptorInstalled := true, sessionIntegrity := false })) ∧
    (∀ req : Request, ∀ r : OkResponse, eqIgnoreCase req.host domain = true →
        r.handshake = some (.x509 c :: cs) →
        intercept domain pin sha (.ok r) req =
          (.error "DataSync: Configuration mismatch",
           [.proceed req.host, .computeHash])) ∧
    (∀ env : SecureFetchEnv, ∀ w : World, w.js = false →
        env.nativePresent = false →
        env.fetchResult = .thrown "DataSync: Configuration mismatch" →
        (secureFetch env sha w).res =
          .error "DataSync: Configuration mismatch" ∧
        (secureFetch env sha w).world.js = true) := by
  refine ⟨ensureConfigSync_mismatch sha domain pin c cs e now s hne, ?_, ?_⟩
  · intro req r hcase hh
    unfold intercept
    simp [hcase, hh, hne]
  · intro env w hjs hn hf
    have hinc : strIncludes "DataSync: Configuration mismatch" "DataSync" = true := by
      decide
    rw [secureFetch_no_native env sha w hjs hn,
        runFetch_thrown env w [] _ hf, hinc]
    simp

theorem pin_mismatch_trips_both_paths_witness :
    ensureConfigSync hashFx "vulnbank.org" "AAAA=="
        (.success [.x509 certOther]) 80 1000 SyncState.init =
      (.rejected "CONFIG_MISMATCH" "DataSync: Configuration mismatch",
       { SyncState.init with interceptorInstalled := true,
                             sessionIntegrity := false }) :=
  (pin_mismatch_trips_both_paths hashFx "vulnbank.org" "AAAA=="
    certOther [] 80 1000 SyncState.init (by decide)).1

/-- C4: a certificate whose SPKI fingerprint equals the configured pin —
membership is case-sensitive exact string equality, with no partial or
prefix matching, which the converse direction expresses — validates
successfully when the timing floors are met: `ensureConfigSync` resolves
`true` and increments the validation counter, and the full `secureFetch`
returns the fetched response. -/
theorem pin_match_validates_exactly (sha : ByteHash) (domain pin : String)
    (c : Certificate) (cs : List PeerCert) (e now : Nat) (s : SyncState)
    (hfloor : 50 ≤ e) :
    (computeSpkiHash sha c = pin →
      ensureConfigSync sha domain pin (.success (.x509 c :: cs)) e now s =
        (.resolved true,
         { s with interceptorInstalled := true,
                  validationCount := s.validationCount + 1,
                  lastValidationTimestamp := now })) ∧
    ((ensureConfigSync sha domain pin (.success (.x509 c :: cs)) e now s).1 =
        .resolved true → computeSpkiHash sha c = pin) ∧
    (∀ env : SecureFetchEnv, ∀ w : World, ∀ r : RawResponse,
        w.js = false → env.nativePresent = true →
        env.conn = .success (.x509 c :: cs) →
        computeSpkiHash sha c = jsOr env.pinEnvRaw "" →
        env.nativeElapsedMs = e → 30 ≤ env.jsElapsed →
        env.fetchResult = .ok r →
        (secureFetch env sha w).res =
          .ok { ok := r.ok, status := r.status,
                headers := headersToObject r.headers, url := r.url } ∧
        (secureFetch env sha w).world.native.validationCount =
          w.native.validationCount + 1) := by
  refine ⟨fun hm => ensureConfigSync_valid sha domain pin c cs e now s hm hfloor,
          ?_, ?_⟩
  · intro hres
    by_cases hm : computeSpkiHash sha c = pin
    · exact hm
    · rw [ensureConfigSync_mismatch sha domain pin c cs e now s hm] at hres
      exact absurd hres (by simp)
  · intro env w r hjs hn hconn hpin helapsed hjs30 hf
    have h30 : ¬ env.jsElapsed < 30 := Nat.not_lt.mpr hjs30
    unfold secureFetch
    rw [hjs]
    simp only [hn, if_true, if_false, Bool.false_eq_true]
    rw [hconn, helapsed,
        ensureConfigSync_valid sha (jsOr env.domainEnvRaw "vulnbank.org")
          (jsOr env.pinEnvRaw "") c cs e env.now w.native hpin hfloor]
    simp only [h30, if_false]
    unfold runFetch
    rw [hf]
    simp

theorem pin_match_validates_exactly_witness :
    50 ≤ 80 ∧
    ensureConfigSync hashFx "vulnbank.org" "AAAA=="
        (.success [.x509 certMatch]) 80 1000 SyncState.init =
      (.resolved true,
       { SyncState.init with interceptorInstalled := true,
                             validationCount := 1,
                             lastValidationTimestamp := 1000 }) :=
  ⟨by decide,
   (pin_match_validates_exactly hashFx "vulnbank.org" "AAAA==" certMatch []
      80 1000 SyncState.init (by decide)).1 (by decide)⟩

/-- An otherwise fully validated `secureFetch` run whose final `fetch`
fails with a plain network error (DNS failure, unreachable host …) whose
message carries no `DataSync` marker. -/
def envNetFail : SecureFetchEnv :=
  { envFx with fetchResult := .thrown "Network request failed" }

/-- C5 counterexample: a network failure of the primary request during a
validated `secureFetch` (native validation passed, both floors met) is
rethrown with both session-integrity flags still trusted — the code does
not trip the flag for every network failure of a validated request. -/
theorem primary_fetch_network_failure_no_trip :
    (secureFetch envNetFail hashFx World.init).res =
        .error "Network request failed" ∧
    (secureFetch envNetFail hashFx World.init).world.js = false ∧
    (secureFetch envNetFail hashFx
        World.init).world.native.sessionIntegrity = true := by
  decide

/-- C5 (amended): the fail-closed rule holds on the verification path but
not on the primary transport.  (1) Any network failure of the dedicated
`ensureConfigSync` connection rejects and sets the native flag to
`false`.  (2) Any rejection of the native validation call — network
failures included — makes `secureFetch` trip the JS flag and rethrow.
(3) An error raised by the primary `fetch` trips the JS flag exactly when
its message contains `DataSync` (an interceptor verdict); a plain network
failure of the primary request is rethrown without tripping the flag. -/
theorem network_failure_fail_closed_amended (sha : ByteHash) :
    (∀ domain pin msg : String, ∀ e now : Nat, ∀ s : SyncState,
       ensureConfigSync sha domain pin (.failure msg) e now s =
         (.rejected "CONFIG_ERROR" ("DataSync: Sync failed - " ++ msg),
          { s with interceptorInstalled := true,
                   sessionIntegrity := false })) ∧
    (∀ env : SecureFetchEnv, ∀ w : World, ∀ msg : String,
       w.js = false → env.nativePresent = true → env.conn = .failure msg →
       (secureFetch env sha w).world.js = true ∧
       (secureFetch env sha w).world.native.sessionIntegrity = false ∧
       (secureFetch env sha w).res =
         .error ("DataSync: Configuration sync failed - " ++
           ("DataSync: Sync failed - " ++ msg))) ∧
    (∀ env : SecureFetchEnv, ∀ w : World, ∀ m : String,
       w.js = false → env.nativePresent = false →
       env.fetchResult = .thrown m →
       (secureFetch env sha w).world.js = strIncludes m "DataSync" ∧
       (secureFetch env sha w).res = .error m) := by
  refine ⟨fun domain pin msg e now s =>
            ensureConfigSync_failure sha domain pin msg e now s, ?_, ?_⟩
  · intro env w msg hjs hn hconn
    unfold secureFetch
    rw [hjs]
    simp only [hn, if_true, if_false, Bool.false_eq_true]
    rw [hconn, ensureConfigSync_failure]
    simp
  · intro env w m hjs hn hf
    rw [secureFetch_no_native env sha w hjs hn, runFetch_thrown env w [] m hf]
    by_cases h : strIncludes m "DataSync" <;> simp [h, hjs]

theorem network_failure_fail_closed_amended_witness :
    (secureFetch { envNetFail with nativePresent := false } hashFx
        World.init).world.js = strIncludes "Network request failed" "DataSync" ∧
    (secureFetch { envNetFail with nativePresent := false } hashFx
        World.init).res = .error "Network request failed" :=
  (network_failure_fail_closed_amended hashFx).2.2
    { envNetFail with nativePresent := false } World.init
    "Network request failed" rfl rfl rfl

/-- An otherwise fully validated `secureFetch` run whose JS-measured
elapsed time (10 ms) is below the 30 ms JS floor, with a pin-matching
certificate and the native 50 ms floor met. -/
def envFastJs : SecureFetchEnv := { envFx with jsElapsed := 10 }

/-- C6 counterexample: a validation below the JS 30 ms floor with an
exactly matching pin does trip the flag, but the error it fails with is
the session-integrity-lost message, not a timing-anomaly error (its text
does not even mention timing) — the claim that a below-floor validation
fails with `TimingAnomaly` is false for the JS floor. -/
theorem js_timing_floor_mislabeled_error :
    (secureFetch envFastJs hashFx World.init).res =
        .error "DataSync: Session integrity lost" ∧
    (secureFetch envFastJs hashFx World.init).world.js = true ∧
    strIncludes "DataSync: Session integrity lost" "timing" = false ∧
    (secureFetch envFastJs hashFx World.init).res ≠
        .error "DataSync: Sync timing anomaly" := by
  decide

/-- C6 (amended): the timing guard classifies a validation as anomalous
exactly when `elapsedMs < floorMs`, with a 50 ms floor inside the native
path and a 30 ms floor measured by the JS caller; a below-floor
validation fails and trips the flag even when the fingerprint matches the
pin exactly — the native floor failing with the timing-anomaly error,
while the JS floor failure surfaces as the session-integrity-lost error. -/
theorem timing_floor_amended (sha : ByteHash) :
    (∀ domain pin : String, ∀ c : Certificate, ∀ cs : List PeerCert,
       ∀ e now : Nat, ∀ s : SyncState, computeSpkiHash sha c = pin →
       ((ensureConfigSync sha domain pin (.success (.x509 c :: cs))
           e now s).1 =
          .rejected "CONFIG_ERROR" "DataSync: Sync timing anomaly" ↔
        e < 50)) ∧
    (∀ domain pin : String, ∀ c : Certificate, ∀ cs : List PeerCert,
       ∀ e now : Nat, ∀ s : SyncState,
       computeSpkiHash sha c = pin → e < 50 →
       ensureConfigSync sha domain pin (.success (.x509 c :: cs)) e now s =
         (.rejected "CONFIG_ERROR" "DataSync: Sync timing anomaly",
          { s with interceptorInstalled := true,
                   sessionIntegrity := false })) ∧
    (∀ env : SecureFetchEnv, ∀ w : World, ∀ c : Certificate,
       ∀ cs : List PeerCert, w.js = false → env.nativePresent = true →
       env.conn = .success (.x509 c :: cs) →
       computeSpkiHash sha c = jsOr env.pinEnvRaw "" →
       50 ≤ env.nativeElapsedMs → env.jsElapsed < 30 →
       (secureFetch env sha w).res =
           .error "DataSync: Session integrity lost" ∧
       (secureFetch env sha w).world.js = true ∧
       (secureFetch env sha w).effs =
           [.nativeSync (jsOr env.domainEnvRaw "vulnbank.org")
              (jsOr env.pinEnvRaw "")]) := by
  refine ⟨?_, ?_, ?_⟩
  · intro domain pin c cs e now s hm
    constructor
    · intro hres
      by_cases ht : e < 50
      · exact ht
      · rw [ensureConfigSync_valid sha domain pin c cs e now s hm
              (Nat.not_lt.mp ht)] at hres
        exact absurd hres (by simp)
    · intro ht
      rw [ensureConfigSync_timing sha domain pin c cs e now s hm ht]
  · intro domain pin c cs e now s hm ht
    exact ensureConfigSync_timing sha domain pin c cs e now s hm ht
  · intro env w c cs hjs hn hconn hpin hfloor ht
    unfold secureFetch
    rw [hjs]
    simp only [hn, if_true, if_false, Bool.false_eq_true]
    rw [hconn,
        ensureConfigSync_valid sha (jsOr env.domainEnvRaw "vulnbank.org")
          (jsOr env.pinEnvRaw "") c cs env.nativeElapsedMs env.now w.native
          hpin hfloor]
    simp [ht]

theorem timing_floor_amended_witness :
    (secureFetch envFastJs hashFx World.init).res =
        .error "DataSync: Session integrity lost" ∧
    (secureFetch envFastJs hashFx World.init).world.js = true ∧
    (secureFetch envFastJs hashFx World.init).effs =
        [.nativeSync "vulnbank.org" "AAAA=="] :=
  (timing_floor_amended hashFx).2.2 envFastJs World.init certMatch []
    rfl rfl rfl (by decide) (by decide) (by decide)

/-- C7: the decoy operations never read or write the session-integrity
flag — each returns its state argument unchanged and its result is
independent of the state — so any sequence of decoy calls, with their
return values forced to the bypass value `true` or not, is invisible to
`validate`: `ensureConfigSync` run after any decoy sequence still rejects
a mismatched pin exactly as it does from the same starting state. -/
theorem decoy_noninterference (sha : ByteHash) :
    (∀ conn : ConnectOutcome, ∀ s : SyncState,
       (validateCertificate conn s).2 = s) ∧
    (∀ s : SyncState, (checkSSLPinning s).2 = s) ∧
    (∀ s : SyncState, (verifyCertificateChain s).2 = s) ∧
    (∀ conn : ConnectOutcome, ∀ s t : SyncState,
       (validateCertificate conn s).1 = (validateCertificate conn t).1) ∧
    (∀ s : SyncState, (checkSSLPinning s).1 = .resolved true) ∧
    (∀ s : SyncState, (verifyCertificateChain s).1 = .resolved true) ∧
    (∀ ds : List DecoyCall, ∀ s : SyncState, runDecoys ds s = s) ∧
    (∀ domain pin : String, ∀ c : Certificate, ∀ cs : List PeerCert,
       ∀ e now : Nat, ∀ s : SyncState, ∀ ds : List DecoyCall,
       computeSpkiHash sha c ≠ pin →
       ensureConfigSync sha domain pin (.success (.x509 c :: cs)) e now
           (runDecoys ds s) =
         (.rejected "CONFIG_MISMATCH" "DataSync: Configuration mismatch",
          { s with interceptorInstalled := true,
                   sessionIntegrity := false })) := by
  refine ⟨?_, fun s => rfl, fun s => rfl, ?_, fun s => rfl, fun s => rfl,
          runDecoys_state_id, ?_⟩
  · intro conn s
    cases conn <;> rfl
  · intro conn s t
    cases conn <;> rfl
  · intro domain pin c cs e now s ds hne
    rw [runDecoys_state_id]
    exact ensureConfigSync_mismatch sha domain pin c cs e now s hne

theorem decoy_noninterference_witness :
    ensureConfigSync hashFx "vulnbank.org" "AAAA=="
        (.success [.x509 certOther]) 80 1000
        (runDecoys [.validate (.success []), .checkPin, .verifyChain]
          SyncState.init) =
      (.rejected "CONFIG_MISMATCH" "DataSync: Configuration mismatch",
       { SyncState.init with interceptorInstalled := true,
                             sessionIntegrity := false }) :=
  (decoy_noninterference hashFx).2.2.2.2.2.2.2 "vulnbank.org" "AAAA=="
    certOther [] 80 1000 SyncState.init
    [.validate (.success []), .checkPin, .verifyChain] (by decide)

/-- C8: leaf-certificate extraction failures.  An empty peer chain fails
with the no-certificate-available error and a leaf that is not decodable
as X.509 fails with the malformed-certificate error, on both paths: the
dedicated `ensureConfigSync` connection (which also sets the native flag
to `false`) and the `ConfigInterceptor` (whose `IOException` messages
carry the `DataSync` marker, so `secureFetch`'s catch sets the JS flag to
`true`). -/
theorem missing_or_malformed_cert_rejected (sha : ByteHash) :
    (∀ domain pin : String, ∀ e now : Nat, ∀ s : SyncState,
       ensureConfigSync sha domain pin (.success []) e now s =
         (.rejected "CONFIG_ERROR" "DataSync: No configuration available",
          { s with interceptorInstalled := true,
                   sessionIntegrity := false })) ∧
    (∀ domain pin : String, ∀ cs : List PeerCert, ∀ e now : Nat,
       ∀ s : SyncState,
       ensureConfigSync sha domain pin (.success (.other :: cs)) e now s =
         (.rejected "CONFIG_ERROR" "DataSync: Configuration format error",
          { s with interceptorInstalled := true,
                   sessionIntegrity := false })) ∧
    (∀ domain pin : String, ∀ req : Request, ∀ r : OkResponse,
       eqIgnoreCase req.host domain = true → r.handshake = some [] →
       intercept domain pin sha (.ok r) req =
         (.error "DataSync: Configuration missing", [.proceed req.host])) ∧
    (∀ domain pin : String, ∀ req : Request, ∀ r : OkResponse,
       ∀ cs : List PeerCert,
       eqIgnoreCase req.host domain = true →
       r.handshake = some (.other :: cs) →
       intercept domain pin sha (.ok r) req =
         (.error "DataSync: Configuration format error",
          [.proceed req.host])) ∧
    (∀ env : SecureFetchEnv, ∀ w : World, ∀ m : String,
       w.js = false → env.nativePresent = false →
       env.fetchResult = .thrown m →
       (m = "DataSync: Configuration missing" ∨
        m = "DataSync: Configuration format error") →
       (secureFetch env sha w).world.js = true ∧
       (secureFetch env sha w).res = .error m) := by
  refine ⟨fun domain pin e now s =>
            ensureConfigSync_empty_chain sha domain pin e now s,
          fun domain pin cs e now s =>
            ensureConfigSync_bad_leaf sha domain pin cs e now s,
          ?_, ?_, ?_⟩
  · intro domain pin req r hcase hh
    unfold intercept
    simp [hcase, hh]
  · intro domain pin req r cs hcase hh
    unfold intercept
    simp [hcase, hh]
  · intro env w m hjs hn hf hm
    rw [secureFetch_no_native env sha w hjs hn, runFetch_thrown env w [] m hf]
    rcases hm with hm | hm <;> subst hm <;>
      simp [show strIncludes "DataSync: Configuration missing" "DataSync"
              = true from by decide,
            show strIncludes "DataSync: Configuration format error" "DataSync"
              = true from by decide]

theorem missing_or_malformed_cert_rejected_witness :
    (secureFetch
        { envFx with nativePresent := false,
                     fetchResult := .thrown "DataSync: Configuration missing" }
        hashFx World.init).world.js = true ∧
    (secureFetch
        { envFx with nativePresent := false,
                     fetchResult := .thrown "DataSync: Configuration missing" }
        hashFx World.init).res = .error "DataSync: Configuration missing" :=
  (missing_or_malformed_cert_rejected hashFx).2.2.2.2
    { envFx with nativePresent := false,
                 fetchResult := .thrown "DataSync: Configuration missing" }
    World.init "DataSync: Configuration missing" rfl rfl rfl (Or.inl rfl)

/-- C9: when the native `DataSyncManager` module is absent, `secureFetch`
performs no pin validation, no interceptor installation and no timing
check: the call is exactly the guarded `fetch` (`runFetch env w []`), the
native state is untouched, and the only external call is the fetch
itself. -/
theorem native_module_absent_skips_validation (env : SecureFetchEnv)
    (sha : ByteHash) (w : World) (hjs : w.js = false)
    (hn : env.nativePresent = false) :
    secureFetch env sha w = runFetch env w [] ∧
    (secureFetch env sha w).world.native = w.native ∧
    (secureFetch env sha w).effs = [JsEffect.jsFetch env.url] := by
  have h1 : secureFetch env sha w = runFetch env w [] := by
    unfold secureFetch
    simp [hjs, hn]
  refine ⟨h1, ?_, ?_⟩
  · rw [h1]
    exact runFetch_native_eq env w []
  · rw [h1]
    unfold runFetch
    cases env.fetchResult with
    | ok r => simp
    | thrown m => by_cases h : strIncludes m "DataSync" <;> simp [h]

theorem native_module_absent_skips_validation_witness :
    secureFetch { envFx with nativePresent := false } hashFx World.init =
        runFetch { envFx with nativePresent := false } World.init [] ∧
    (secureFetch { envFx with nativePresent := false } hashFx
        World.init).world.native = World.init.native ∧
    (secureFetch { envFx with nativePresent := false } hashFx
        World.init).effs = [JsEffect.jsFetch "https://vulnbank.org/login"] :=
  native_module_absent_skips_validation { envFx with nativePresent := false }
    hashFx World.init rfl rfl

/-- C10: a request whose host differs (case-insensitively) from the pinned
domain passes through the interceptor untouched: the result is exactly
that of `chain.proceed(request)` and the only effect is that single
proceed — no certificate extraction, no fingerprint computation, no pin
comparison (and `intercept` is a pure function, so no state changes). -/
theorem interceptor_foreign_host_passthrough (dom pin : String)
    (sha : ByteHash) (pr : ProceedOutcome) (req : Request)
    (h : eqIgnoreCase req.host dom = false) :
    intercept dom pin sha pr req =
      (proceedResult pr, [IEffect.proceed req.host]) := by
  unfold intercept
  simp [h]

theorem interceptor_foreign_host_passthrough_witness :
    intercept "vulnbank.org" "AAAA==" hashFx
        (.ok { handshake := some [.x509 certOther] }) { host := "evil.example" }
      = (.ok { handshake := some [.x509 certOther] },
         [IEffect.proceed "evil.example"]) :=
  interceptor_foreign_host_passthrough "vulnbank.org" "AAAA==" hashFx
    (.ok { handshake := some [.x509 certOther] }) { host := "evil.example" }
    (by decide)

end VulnBank
